import Mathlib

/-!
A verification development for the `hello_dev` test-suite repository.

The repository is a pytest suite (`config.py`, `test_service_api.py`,
`test_ui.py`) exercising a remote service-management application.  The parts
embedded here are the pure/deterministic pieces the claims are about:

* the tax calculator `calculate_tax` / `calculate_gross` from `config.py`
  (Python numbers are modelled as exact rationals, `round(x, 2)` as
  round-half-even to two decimal places);
* the response-normalization helper `extract_service_from_response`, the
  creation helper `create_service`, the error-shape assertion helper
  `assert_validation_error` and the teardown loop of `setup_and_teardown`
  from `test_service_api.py`, embedded over a JSON value type with explicit
  `Except` results for the Python exception paths;
* the static configuration tables (`DB_LIMITS`) and the boundary-value
  tables of the test cases.

HTTP responses are modelled as a status code plus an already-decoded JSON
body; issuing the request itself is I/O and is taken as an input of the
embedded functions.
-/

/-- JSON values as decoded by `response.json()`.  Numbers are modelled as
exact rationals. -/
inductive Json where
  | null
  | bool (b : Bool)
  | num (q : ℚ)
  | str (s : String)
  | arr (elems : List Json)
  | obj (fields : List (String × Json))

/-- Python `key in d` for a dict `d` (keys of the object). -/
def hasKey (fields : List (String × Json)) (key : String) : Bool :=
  fields.any (fun kv => kv.1 == key)

/-- Python `d[key]` lookup in a dict (objects are modelled with distinct
keys, as produced by JSON decoding). -/
def lookupField : List (String × Json) → String → Option Json
  | [], _ => none
  | (k, v) :: rest, key => if k == key then some v else lookupField rest key

/-- Python `key in s` on strings: substring containment (the empty string is
contained in every string, as in Python). -/
def strContainsSub (s key : String) : Bool :=
  decide (key.data <:+: s.data)

/-- Python `key in v` for a decoded JSON value `v`:
dict membership tests the keys, list membership tests the elements (a string
key can only equal a string element), string membership is substring search,
and any other value raises `TypeError` (modelled as `Except.error ()`). -/
def pyContains (key : String) : Json → Except Unit Bool
  | .obj fields => .ok (hasKey fields key)
  | .arr elems => .ok (elems.any (fun e => match e with | .str s => s == key | _ => false))
  | .str s => .ok (strContainsSub s key)
  | _ => .error ()

/-- Python `v[key]` with a string subscript: succeeds only on a dict that has
the key; on a missing key (`KeyError`) or a non-dict value (`TypeError`) it
raises, modelled as `Except.error ()`. -/
def pyGetItem : Json → String → Except Unit Json
  | .obj fields, key =>
    match lookupField fields key with
    | some v => .ok v
    | none => .error ()
  | _, _ => .error ()

/-- An HTTP response as seen by the harness: status code plus decoded JSON
body. -/
structure HResp where
  status_code : Nat
  body : Json

/-- The distinct failure modes of `extract_service_from_response`:
the status assertion at its top, the `assert len(response_data["data"]) > 0`
assertion, the final `pytest.fail` naming the top-level keys, and a Python
`TypeError`/`AttributeError` from applying dict operations to a non-dict
body. -/
inductive ExtractErr where
  | wrongStatus (got : Nat)
  | emptyDataList
  | unexpectedKeys (keys : List String)
  | typeError
deriving DecidableEq

/-- The `pytest.fail` at the end of `extract_service_from_response`: its
message interpolates `list(response_data.keys())`, which raises
`AttributeError` when the body is not a dict. -/
def failUnexpected (body : Json) : Except ExtractErr Json :=
  match body with
  | .obj fields => .error (.unexpectedKeys (fields.map Prod.fst))
  | _ => .error .typeError

/-- `TestServiceAPI.extract_service_from_response` (test_service_api.py,
lines 42-69): assert status in [200, 201]; if `"uuid" in response_data`
return the body as is; if `"data" in response_data` and it is a list, assert
it non-empty and return its first element; otherwise `pytest.fail` naming
the top-level keys. -/
def extract_service_from_response (resp : HResp) : Except ExtractErr Json :=
  if resp.status_code = 200 ∨ resp.status_code = 201 then
    match pyContains "uuid" resp.body with
    | .error _ => .error .typeError
    | .ok true => .ok resp.body
    | .ok false =>
      match pyContains "data" resp.body with
      | .error _ => .error .typeError
      | .ok false => failUnexpected resp.body
      | .ok true =>
        match pyGetItem resp.body "data" with
        | .error _ => .error .typeError
        | .ok (.arr []) => .error .emptyDataList
        | .ok (.arr (x :: _)) => .ok x
        | .ok _ => failUnexpected resp.body
  else .error (.wrongStatus resp.status_code)

/-- The body of the `try` block inside `create_service`: if the extracted
service contains `"uuid"`, append `service["uuid"]` to the tracked list;
any raised exception is reported as `Except.error ()`. -/
def track_from_service (tracked : List Json) (service : Json) : Except Unit (List Json) :=
  match pyContains "uuid" service with
  | .error _ => .error ()
  | .ok false => .ok tracked
  | .ok true =>
    match pyGetItem service "uuid" with
    | .error _ => .error ()
    | .ok u => .ok (tracked ++ [u])

/-- `TestServiceAPI.create_service` (test_service_api.py, lines 71-85),
starting from the response of the POST it issues and the current
`created_service_uuids` list: when the status is 200 or 201 it tries to
extract the service and track its uuid, swallowing every exception
(`except: pass`); it always returns the raw response, paired here with the
updated tracked list. -/
def create_service (resp : HResp) (tracked : List Json) : HResp × List Json :=
  if resp.status_code = 200 ∨ resp.status_code = 201 then
    match extract_service_from_response resp with
    | .error _ => (resp, tracked)
    | .ok service =>
      match track_from_service tracked service with
      | .error _ => (resp, tracked)
      | .ok t => (resp, t)
  else (resp, tracked)

/-- Outcome of `assert_validation_error`: the status assertion sits outside
the `try`, so its failure is an ordinary `AssertionError`; every failure
inside the `try` is turned into `pytest.fail` (harness-fatal); otherwise the
errors value (or the requested field's messages) is returned. -/
inductive AVResult where
  | statusAssertionFailure (got : Nat)
  | harnessFatal
  | ok (v : Json)

/-- Whether an `AVResult` is the ordinary status-assertion failure. -/
def AVResult.isStatusFailure : AVResult → Bool
  | .statusAssertionFailure _ => true
  | _ => false

/-- The `try` block of `assert_validation_error`: assert `"errors" in
response_data`; if a (truthy, i.e. non-empty) field was requested, assert it
is in `response_data["errors"]` and return its messages, else return the
full errors value.  Any raised exception is `Except.error ()`. -/
def validation_errors_inner (body : Json) (expected_field : Option String) : Except Unit Json :=
  match pyContains "errors" body with
  | .error _ => .error ()
  | .ok false => .error ()
  | .ok true =>
    match expected_field with
    | none => pyGetItem body "errors"
    | some f =>
      if f.isEmpty then pyGetItem body "errors"
      else
        match pyGetItem body "errors" with
        | .error _ => .error ()
        | .ok errs =>
          match pyContains f errs with
          | .error _ => .error ()
          | .ok false => .error ()
          | .ok true => pyGetItem errs f

/-- `TestServiceAPI.assert_validation_error` (test_service_api.py, lines
87-106): assert status 422 outside the `try`; run the checks of
`validation_errors_inner` inside it, converting any exception into
`pytest.fail` ("could not parse validation errors"). -/
def assert_validation_error (resp : HResp) (expected_field : Option String) : AVResult :=
  if resp.status_code = 422 then
    match validation_errors_inner resp.body expected_field with
    | .ok v => .ok v
    | .error _ => .harnessFatal
  else .statusAssertionFailure resp.status_code

/-- The teardown loop of `setup_and_teardown` (test_service_api.py, lines
27-40): for every tracked identifier issue one DELETE inside
`try: ... except: pass`.  The DELETE effect is an oracle that may raise;
the result is the list of identifiers a DELETE was issued for, paired with
whether the loop itself raised. -/
def teardown_cleanup (deleteReq : Json → Except Unit Unit) : List Json → List Json × Bool
  | [] => ([], false)
  | u :: rest =>
    match (match deleteReq u with
           | .ok _ => Except.ok ()
           | .error _ => Except.ok ()) with
    | Except.ok _ =>
      match teardown_cleanup deleteReq rest with
      | (issued, raised) => (u :: issued, raised)
    | Except.error (_ : Unit) => ([u], true)

/-- Round half to even on rationals (the rounding of Python's built-in
`round` on ties). -/
def roundHalfEven (x : ℚ) : ℤ :=
  if x - ⌊x⌋ < 1 / 2 then ⌊x⌋
  else if 1 / 2 < x - ⌊x⌋ then ⌊x⌋ + 1
  else if ⌊x⌋ % 2 = 0 then ⌊x⌋ else ⌊x⌋ + 1

/-- Python `round(x, 2)` on the exact-rational model. -/
def pyRound2 (x : ℚ) : ℚ :=
  (roundHalfEven (x * 100) : ℚ) / 100

/-- The `DB_LIMITS` dict of config.py, lines 28-38. -/
structure DBLimits where
  name_max_length : Nat
  min_int : Int
  max_int : Int
  tax_rate : ℚ
  price_min : ℚ
  quantity_min : ℚ
  tax_min : ℚ
  gross_min : ℚ

/-- `DB_LIMITS` (config.py, lines 28-38). -/
def DB_LIMITS : DBLimits :=
  { name_max_length := 255
    min_int := -2147483648
    max_int := 2147483647
    tax_rate := 22 / 100
    price_min := 1
    quantity_min := 1
    tax_min := 1 / 100
    gross_min := 1 / 100 }

/-- `calculate_tax` (config.py, lines 98-100):
`round(price * DB_LIMITS["tax_rate"], 2)`. -/
def calculate_tax (price : ℚ) : ℚ :=
  pyRound2 (price * DB_LIMITS.tax_rate)

/-- `calculate_gross` (config.py, lines 103-106):
`round(price + calculate_tax(price), 2)`. -/
def calculate_gross (price : ℚ) : ℚ :=
  pyRound2 (price + calculate_tax price)

/-- The numeric fields of a service payload sent by the test bodies.  The
`name` field of the Python payloads is a scenario label (a string literal or
an interpolated description) that none of the embedded assertions touch, so
it is not modelled. -/
structure ServicePayload where
  quantity : ℚ
  price : ℚ
  tax : ℚ
  gross : ℚ

/-- The `service_data` of `test_create_service_with_min_positive_values`
(test_service_api.py, lines 270-288), built from the `DB_LIMITS`
constants. -/
def min_positive_values_payload : ServicePayload :=
  { quantity := DB_LIMITS.quantity_min
    price := DB_LIMITS.price_min
    tax := calculate_tax DB_LIMITS.price_min
    gross := calculate_gross DB_LIMITS.price_min }

/-- `test_prices` of `test_create_service_with_different_prices`
(test_service_api.py, lines 188-216). -/
def different_prices_test_prices : List ℚ :=
  [100, 2505 / 10, 1000, 9999 / 100, 1, 3000, 2500, 1500, 2000]

/-- The `service_data` built for one price in
`test_create_service_with_different_prices`. -/
def different_prices_payload (p : ℚ) : ServicePayload :=
  { quantity := 1, price := p, tax := calculate_tax p, gross := calculate_gross p }

/-- The price used by `test_get_service_success` (test_service_api.py,
lines 290-320). -/
def get_service_test_price : ℚ := 200

/-- The `service_data` of `test_get_service_success`. -/
def get_service_payload : ServicePayload :=
  { quantity := 5
    price := get_service_test_price
    tax := calculate_tax get_service_test_price
    gross := calculate_gross get_service_test_price }

/-- The `test_cases` table of `test_tax_calculation_precision`
(test_service_api.py, lines 401-436): (price, expected tax, expected
gross), compared by the test at 0.01 tolerance. -/
def tax_precision_cases : List (ℚ × ℚ × ℚ) :=
  [(100, 22, 122), (2505 / 10, 5511 / 100, 30561 / 100),
   (9999 / 100, 22, 12199 / 100), (1000, 220, 1220),
   (3333 / 100, 733 / 100, 4066 / 100), (3000, 660, 3660),
   (2500, 550, 3050)]

/-- The parametrize table of `test_ui.py::test_price_boundaries` (lines
245-256): (price, should the creation succeed). -/
def price_boundary_cases : List (ℚ × Bool) :=
  [(0, false), (1 / 100, true), (99 / 100, true), (1, true),
   (9999999 / 100, true), (100000, true), (2147483647, true),
   (214748364799 / 100, false), (2147483648, false), (-1 / 100, false)]

/-- The error message `test_price_boundaries` requires in the page's
error text for every rejected price (test_ui.py, line 285). -/
def price_boundary_error_message : String :=
  "значение «цена без ндс» должно быть не меньше 0.01"

/-- The `test_cases` of `test_ui.py::test_name_validation` (lines 212-242):
(name, should the creation succeed). -/
def name_validation_cases : List (String × Bool) :=
  [(String.mk (List.replicate 255 'a'), true),
   (String.mk (List.replicate 256 'a'), false),
   ("", false)]

/-- The `service_data` of `test_validation_min_quantity`
(test_service_api.py, lines 539-554). -/
def min_quantity_payload : ServicePayload :=
  { quantity := 0, price := 100, tax := 22, gross := 122 }

/-- The field whose validation error `test_validation_min_quantity`
requires of the 422 response. -/
def min_quantity_expected_field : String := "quantity"

/-- C2: `calculate_tax p` is `round(p * 0.22, 2)` and `calculate_gross p`
is `round(p + calculate_tax p, 2)` for every rational input, negative
inputs included, with no error case; in particular for `0 ≤ p` the gross
equals `round(p + round(p * 0.22, 2), 2)`. -/
theorem C2_tax_calculator (p : ℚ) :
    calculate_tax p = pyRound2 (p * (22 / 100)) ∧
    calculate_gross p = pyRound2 (p + calculate_tax p) ∧
    (0 ≤ p → calculate_gross p = pyRound2 (p + pyRound2 (p * (22 / 100)))) :=
  ⟨rfl, rfl, fun _ => rfl⟩

/-- Witness for C2 at `p = 100`. -/
theorem C2_tax_calculator_witness :
    (0 : ℚ) ≤ 100 ∧
    calculate_gross 100 = pyRound2 (100 + pyRound2 (100 * (22 / 100))) :=
  ⟨by norm_num, (C2_tax_calculator 100).2.2 (by norm_num)⟩

/-- C5: the teardown loop of `setup_and_teardown` issues exactly one DELETE
per tracked identifier, in list order, swallows every deletion error
(including a 404 for an already-deleted resource, whatever the delete
oracle reports), and never raises. -/
theorem C5_teardown_best_effort (deleteReq : Json → Except Unit Unit)
    (uuids : List Json) :
    teardown_cleanup deleteReq uuids = (uuids, false) := by
  induction uuids with
  | nil => rfl
  | cons u rest ih =>
    cases h : deleteReq u <;> simp [teardown_cleanup, h, ih]

/-- C6 counterexample: the configuration's minimum-price constant is 1, not
0.01, so the min-positive-values test creates its record with price 1. -/
theorem C6_counterexample :
    DB_LIMITS.price_min ≠ 1 / 100 ∧
    min_positive_values_payload.price ≠ 1 / 100 := by
  constructor <;> norm_num [DB_LIMITS, min_positive_values_payload]

/-- C6 (amended): the configuration's minimum-price constant `price_min`
equals 1, and the positive test built from the constants creates its record
with price 1; the 0.01 minimum appears in the `tax_min`/`gross_min`
constants and in the UI boundary table, which expects price 0.01
accepted. -/
theorem C6_min_price_config :
    DB_LIMITS.price_min = 1 ∧
    min_positive_values_payload.price = DB_LIMITS.price_min ∧
    min_positive_values_payload.quantity = DB_LIMITS.quantity_min ∧
    min_positive_values_payload.tax = calculate_tax DB_LIMITS.price_min ∧
    min_positive_values_payload.gross = calculate_gross DB_LIMITS.price_min ∧
    DB_LIMITS.tax_min = 1 / 100 ∧ DB_LIMITS.gross_min = 1 / 100 ∧
    (1 / 100, true) ∈ price_boundary_cases :=
  ⟨rfl, rfl, rfl, rfl, rfl, rfl, rfl, by simp [price_boundary_cases]⟩

/-- C7: the suite's boundary tables classify price 0.00 as rejected with a
required message containing "не меньше 0.01", price 0.01 as accepted,
quantity 0 as rejected (validation error expected for field "quantity"),
a 255-character name as accepted and a 256-character name as rejected. -/
theorem C7_boundary_tables :
    (0, false) ∈ price_boundary_cases ∧
    (1 / 100, true) ∈ price_boundary_cases ∧
    strContainsSub price_boundary_error_message "не меньше 0.01" = true ∧
    min_quantity_payload.quantity = 0 ∧
    min_quantity_expected_field = "quantity" ∧
    (String.mk (List.replicate 255 'a'), true) ∈ name_validation_cases ∧
    (String.mk (List.replicate 256 'a'), false) ∈ name_validation_cases := by
  refine ⟨by simp [price_boundary_cases], by simp [price_boundary_cases],
    by decide, rfl, rfl,
    by simp [name_validation_cases], by simp [name_validation_cases]⟩

/-- C8 counterexample: 0.01 and 2147483647 are not among the prices of
`test_create_service_with_different_prices`, and the read-back test
`test_get_service_success` uses the single price 200. -/
theorem C8_counterexample :
    (1 / 100 : ℚ) ∉ different_prices_test_prices ∧
    (2147483647 : ℚ) ∉ different_prices_test_prices ∧
    get_service_test_price = 200 := by
  refine ⟨?_, ?_, rfl⟩ <;> norm_num [different_prices_test_prices]

/-- C8 (amended): the multi-price creation test uses prices
{100, 250.50, 1000, 99.99, 1, 3000, 2500, 1500, 2000} and asserts the POST
response's tax and gross equal `calculate_tax`/`calculate_gross` exactly;
the read-back test uses the single price 200 with exact comparison; the
0.01-tolerance comparison belongs to `test_tax_calculation_precision`,
whose expected values agree exactly with the calculator. -/
theorem C8_price_roundtrip_tables :
    different_prices_test_prices =
      [100, 2505 / 10, 1000, 9999 / 100, 1, 3000, 2500, 1500, 2000] ∧
    (∀ p ∈ different_prices_test_prices,
      (different_prices_payload p).price = p ∧
      (different_prices_payload p).quantity = 1 ∧
      (different_prices_payload p).tax = calculate_tax p ∧
      (different_prices_payload p).gross = calculate_gross p) ∧
    get_service_payload.price = 200 ∧
    get_service_payload.tax = calculate_tax 200 ∧
    get_service_payload.gross = calculate_gross 200 ∧
    (∀ c ∈ tax_precision_cases,
      calculate_tax c.1 = c.2.1 ∧ calculate_gross c.1 = c.2.2) := by
  refine ⟨rfl, ?_, rfl, rfl, rfl, ?_⟩
  · intro p _
    exact ⟨rfl, rfl, rfl, rfl⟩
  · intro c hc
    simp only [tax_precision_cases, List.mem_cons, List.not_mem_nil,
      or_false] at hc
    rcases hc with rfl | rfl | rfl | rfl | rfl | rfl | rfl <;>
      constructor <;>
      norm_num [calculate_tax, calculate_gross, pyRound2, roundHalfEven,
        DB_LIMITS]

/-- Witness for C8 (amended) at price 100. -/
theorem C8_price_roundtrip_tables_witness :
    (100 : ℚ) ∈ different_prices_test_prices ∧
    (different_prices_payload 100).tax = calculate_tax 100 :=
  ⟨by simp [different_prices_test_prices],
   (C8_price_roundtrip_tables.2.1 100
     (by simp [different_prices_test_prices])).2.2.1⟩

/-- A successful `lookupField` forces `hasKey`. -/
theorem hasKey_of_lookupField (fields : List (String × Json)) (key : String)
    (v : Json) (h : lookupField fields key = some v) :
    hasKey fields key = true := by
  induction fields with
  | nil => simp [lookupField] at h
  | cons kv rest ih =>
    obtain ⟨k, w⟩ := kv
    by_cases hk : (k == key) = true
    · simp [hasKey, hk]
    · simp only [lookupField, hk, if_false, Bool.false_eq_true, ite_false] at h
      have hr := ih h
      simp only [hasKey, List.any_cons] at hr ⊢
      simp [hk, hr]

/-- `extract_service_from_response` after the status assertion passed. -/
theorem extract_unfold_ok (resp : HResp)
    (h : resp.status_code = 200 ∨ resp.status_code = 201) :
    extract_service_from_response resp =
      match pyContains "uuid" resp.body with
      | .error _ => .error .typeError
      | .ok true => .ok resp.body
      | .ok false =>
        match pyContains "data" resp.body with
        | .error _ => .error .typeError
        | .ok false => failUnexpected resp.body
        | .ok true =>
          match pyGetItem resp.body "data" with
          | .error _ => .error .typeError
          | .ok (.arr []) => .error .emptyDataList
          | .ok (.arr (x :: _)) => .ok x
          | .ok _ => failUnexpected resp.body := by
  unfold extract_service_from_response
  rw [if_pos h]

/-- C1 (amended): for a response with status 200 or 201 and an object body,
a body containing the key "uuid" is returned unchanged; otherwise a body
whose "data" key holds a non-empty list yields that list's first element; a
"data" key holding an empty list fails with the empty-data assertion, whose
error does not name the keys; in every other case the function fails with
the error naming the body's top-level keys (the empty key set for `{}`), so
no third shape is silently accepted.  A status outside {200, 201} fails the
status assertion before the body is examined. -/
theorem C1_extract_envelope (fields : List (String × Json)) (status : Nat)
    (hst : status = 200 ∨ status = 201) :
    (hasKey fields "uuid" = true →
      extract_service_from_response ⟨status, Json.obj fields⟩ =
        .ok (Json.obj fields)) ∧
    (∀ x rest, hasKey fields "uuid" = false →
      lookupField fields "data" = some (Json.arr (x :: rest)) →
      extract_service_from_response ⟨status, Json.obj fields⟩ = .ok x) ∧
    (hasKey fields "uuid" = false →
      lookupField fields "data" = some (Json.arr []) →
      extract_service_from_response ⟨status, Json.obj fields⟩ =
        .error .emptyDataList) ∧
    (hasKey fields "uuid" = false → hasKey fields "data" = false →
      extract_service_from_response ⟨status, Json.obj fields⟩ =
        .error (.unexpectedKeys (fields.map Prod.fst))) ∧
    (∀ v, hasKey fields "uuid" = false →
      lookupField fields "data" = some v → (∀ l, v ≠ Json.arr l) →
      extract_service_from_response ⟨status, Json.obj fields⟩ =
        .error (.unexpectedKeys (fields.map Prod.fst))) := by
  have he := extract_unfold_ok ⟨status, Json.obj fields⟩ hst
  refine ⟨?_, ?_, ?_, ?_, ?_⟩
  · intro hu
    rw [he]
    simp [pyContains, hu]
  · intro x rest hu hd
    have hk := hasKey_of_lookupField _ _ _ hd
    rw [he]
    simp [pyContains, pyGetItem, hu, hk, hd]
  · intro hu hd
    have hk := hasKey_of_lookupField _ _ _ hd
    rw [he]
    simp [pyContains, pyGetItem, hu, hk, hd]
  · intro hu hdk
    rw [he]
    simp [pyContains, hu, hdk, failUnexpected]
  · intro v hu hd hv
    have hk := hasKey_of_lookupField _ _ _ hd
    rw [he]
    cases v with
    | arr l => exact absurd rfl (hv l)
    | null => simp [pyContains, pyGetItem, hu, hk, hd, failUnexpected]
    | bool b => simp [pyContains, pyGetItem, hu, hk, hd, failUnexpected]
    | num q => simp [pyContains, pyGetItem, hu, hk, hd, failUnexpected]
    | str s => simp [pyContains, pyGetItem, hu, hk, hd, failUnexpected]
    | obj g => simp [pyContains, pyGetItem, hu, hk, hd, failUnexpected]

/-- Witness for C1 (amended): a body carrying "uuid" is returned as is. -/
theorem C1_extract_envelope_witness :
    extract_service_from_response ⟨200, Json.obj [("uuid", Json.str "x")]⟩ =
      .ok (Json.obj [("uuid", Json.str "x")]) :=
  (C1_extract_envelope [("uuid", Json.str "x")] 200 (Or.inl rfl)).1 rfl

/-- C1 counterexample: for the body mapping "data" to an empty list the
function fails through the empty-data assertion, whose error is not the one
naming the top-level keys; and for a non-2xx status it fails on the status
assertion even though the body carries "uuid". -/
theorem C1_counterexample :
    extract_service_from_response ⟨200, Json.obj [("data", Json.arr [])]⟩ =
      .error .emptyDataList ∧
    ExtractErr.emptyDataList ≠ .unexpectedKeys ["data"] ∧
    extract_service_from_response ⟨500, Json.obj [("uuid", Json.str "x")]⟩ =
      .error (.wrongStatus 500) :=
  ⟨rfl, by decide, rfl⟩

/-- C3: `create_service` always returns the raw response; when the status
is outside {200, 201} the tracked list is untouched (no extraction is
attempted); a failed extraction or a failure inside the tracking block is
swallowed, leaving the tracked list untouched while the response is still
returned; and a successfully extracted record containing "uuid" gets that
identifier appended to the tracked list. -/
theorem C3_create_service_behaviour (resp : HResp) (tracked : List Json) :
    (create_service resp tracked).1 = resp ∧
    (¬(resp.status_code = 200 ∨ resp.status_code = 201) →
      (create_service resp tracked).2 = tracked) ∧
    (∀ e, extract_service_from_response resp = .error e →
      (create_service resp tracked).2 = tracked) ∧
    (∀ s, (resp.status_code = 200 ∨ resp.status_code = 201) →
      extract_service_from_response resp = .ok s →
      track_from_service tracked s = .error () →
      (create_service resp tracked).2 = tracked) ∧
    (∀ s u, (resp.status_code = 200 ∨ resp.status_code = 201) →
      extract_service_from_response resp = .ok s →
      pyContains "uuid" s = .ok true → pyGetItem s "uuid" = .ok u →
      (create_service resp tracked).2 = tracked ++ [u]) := by
  by_cases hst : resp.status_code = 200 ∨ resp.status_code = 201
  · have hc : create_service resp tracked =
        match extract_service_from_response resp with
        | .error _ => (resp, tracked)
        | .ok service =>
          match track_from_service tracked service with
          | .error _ => (resp, tracked)
          | .ok t => (resp, t) := by
      unfold create_service
      rw [if_pos hst]
    refine ⟨?_, fun h => absurd hst h, ?_, ?_, ?_⟩
    · rcases hext : extract_service_from_response resp with e | s
      · simp [hc, hext]
      · rcases htr : track_from_service tracked s with u | t <;>
          simp [hc, hext, htr]
    · intro e hext
      simp [hc, hext]
    · intro s _ hext htr
      simp [hc, hext, htr]
    · intro s u _ hext hcu hgu
      have htr : track_from_service tracked s = .ok (tracked ++ [u]) := by
        unfold track_from_service
        rw [hcu, hgu]
      simp [hc, hext, htr]
  · have hc : create_service resp tracked = (resp, tracked) := by
      unfold create_service
      rw [if_neg hst]
    exact ⟨by rw [hc], fun _ => by rw [hc], fun e _ => by rw [hc],
      fun s h _ _ => absurd h hst, fun s u h _ _ _ => absurd h hst⟩

/-- Witness for C3: a 201 response whose body carries "uuid" is returned
raw and its uuid is appended to the empty tracked list. -/
theorem C3_create_service_behaviour_witness :
    (create_service ⟨201, Json.obj [("uuid", Json.str "a")]⟩ []).1 =
      ⟨201, Json.obj [("uuid", Json.str "a")]⟩ ∧
    (create_service ⟨201, Json.obj [("uuid", Json.str "a")]⟩ []).2 =
      [Json.str "a"] :=
  ⟨(C3_create_service_behaviour _ _).1,
   (C3_create_service_behaviour _ _).2.2.2.2 (Json.obj [("uuid", Json.str "a")])
     (Json.str "a") (Or.inr rfl) rfl rfl rfl⟩

/-- Case analysis of the tracking block: it raises, leaves the list
untouched, or appends the "uuid" entry of an object record. -/
theorem track_from_service_spec (tracked : List Json) (s : Json) :
    track_from_service tracked s = .error () ∨
    track_from_service tracked s = .ok tracked ∨
    ∃ fields u, s = Json.obj fields ∧ hasKey fields "uuid" = true ∧
      lookupField fields "uuid" = some u ∧
      track_from_service tracked s = .ok (tracked ++ [u]) := by
  cases s with
  | obj fields =>
    by_cases hk : hasKey fields "uuid" = true
    · cases hl : lookupField fields "uuid" with
      | none => left; simp [track_from_service, pyContains, pyGetItem, hk, hl]
      | some u =>
        right; right
        exact ⟨fields, u, rfl, hk, hl,
          by simp [track_from_service, pyContains, pyGetItem, hk, hl]⟩
    · right; left
      simp only [Bool.not_eq_true] at hk
      simp [track_from_service, pyContains, hk]
  | arr l =>
    by_cases hb : (l.any (fun e => match e with | .str s => s == "uuid" | _ => false)) = true
    · left; simp [track_from_service, pyContains, pyGetItem, hb]
    · right; left
      simp only [Bool.not_eq_true] at hb
      simp [track_from_service, pyContains, hb]
  | str t =>
    by_cases hb : strContainsSub t "uuid" = true
    · left; simp [track_from_service, pyContains, pyGetItem, hb]
    · right; left
      simp only [Bool.not_eq_true] at hb
      simp [track_from_service, pyContains, hb]
  | null => left; simp [track_from_service, pyContains]
  | bool b => left; simp [track_from_service, pyContains]
  | num q => left; simp [track_from_service, pyContains]

/-- C9: an identifier is appended to the tracked list only for a 200/201
response whose extracted record is an object carrying the key "uuid", and
the appended value is that key's value; consequently a successful creation
returned in the collection shape whose first element lacks "uuid" leaves
the tracked list untouched while the raw response is still returned. -/
theorem C9_tracked_uuid_invariant (resp : HResp) (tracked : List Json) :
    ((create_service resp tracked).2 = tracked ∨
      ∃ fields u, (resp.status_code = 200 ∨ resp.status_code = 201) ∧
        extract_service_from_response resp = .ok (Json.obj fields) ∧
        hasKey fields "uuid" = true ∧
        lookupField fields "uuid" = some u ∧
        (create_service resp tracked).2 = tracked ++ [u]) ∧
    (∀ bfields x xfields rest,
      resp.body = Json.obj bfields →
      hasKey bfields "uuid" = false →
      lookupField bfields "data" = some (Json.arr (x :: rest)) →
      x = Json.obj xfields →
      hasKey xfields "uuid" = false →
      create_service resp tracked = (resp, tracked)) := by
  constructor
  · by_cases hst : resp.status_code = 200 ∨ resp.status_code = 201
    · have hc : create_service resp tracked =
          match extract_service_from_response resp with
          | .error _ => (resp, tracked)
          | .ok service =>
            match track_from_service tracked service with
            | .error _ => (resp, tracked)
            | .ok t => (resp, t) := by
        unfold create_service
        rw [if_pos hst]
      rcases hext : extract_service_from_response resp with e | s
      · left; simp [hc, hext]
      · rcases track_from_service_spec tracked s with htr | htr |
          ⟨fields, u, rfl, hk, hl, htr⟩
        · left; simp [hc, hext, htr]
        · left; simp [hc, hext, htr]
        · right
          exact ⟨fields, u, hst, rfl, hk, hl, by simp [hc, hext, htr]⟩
    · left
      unfold create_service
      rw [if_neg hst]
  · intro bfields x xfields rest hb hu hd hx hxu
    by_cases hst : resp.status_code = 200 ∨ resp.status_code = 201
    · have hk := hasKey_of_lookupField _ _ _ hd
      have hext : extract_service_from_response resp = .ok x := by
        rw [extract_unfold_ok resp hst, hb]
        simp [pyContains, pyGetItem, hu, hk, hd]
      have htr : track_from_service tracked x = .ok tracked := by
        rw [hx]
        simp [track_from_service, pyContains, hxu]
      have hc : create_service resp tracked =
          match extract_service_from_response resp with
          | .error _ => (resp, tracked)
          | .ok service =>
            match track_from_service tracked service with
            | .error _ => (resp, tracked)
            | .ok t => (resp, t) := by
        unfold create_service
        rw [if_pos hst]
      simp [hc, hext, htr]
    · unfold create_service
      rw [if_neg hst]

/-- Witness for C9: a 200 collection-shaped response whose first element
has no "uuid" is returned raw with nothing tracked. -/
theorem C9_tracked_uuid_invariant_witness :
    create_service
      ⟨200, Json.obj [("data", Json.arr [Json.obj [("name", Json.str "x")]]),
                      ("pagination", Json.obj [])]⟩ [] =
      (⟨200, Json.obj [("data", Json.arr [Json.obj [("name", Json.str "x")]]),
                       ("pagination", Json.obj [])]⟩, []) :=
  (C9_tracked_uuid_invariant _ _).2
    [("data", Json.arr [Json.obj [("name", Json.str "x")]]),
     ("pagination", Json.obj [])]
    (Json.obj [("name", Json.str "x")]) [("name", Json.str "x")] []
    rfl rfl rfl rfl rfl

/-- Whether a JSON value is an object (a mapping). -/
def Json.isObj : Json → Bool
  | .obj _ => true
  | _ => false

/-- C4 counterexample: with status 422 and body mapping "errors" to the
number 5 (not a mapping) and no field requested, `assert_validation_error`
succeeds and returns that number instead of failing. -/
theorem C4_counterexample :
    assert_validation_error ⟨422, Json.obj [("errors", Json.num 5)]⟩ none =
      .ok (Json.num 5) ∧
    (Json.num 5).isObj = false :=
  ⟨rfl, rfl⟩

/-- C4 (amended): `assert_validation_error` fails with an ordinary
assertion unless the status is exactly 422; given status 422 it checks only
that the key "errors" is present (the value's type is not checked when no
field is supplied); with a (non-empty) field supplied it additionally
requires that field to be a key of the errors mapping and returns that
field's value, and with no field it returns the whole errors value; every
failure of the checks inside the `try` block is a harness-fatal failure,
never a silent pass. -/
theorem C4_assert_validation_error (resp : HResp) (field : Option String) :
    (resp.status_code ≠ 422 →
      assert_validation_error resp field =
        .statusAssertionFailure resp.status_code) ∧
    (∀ fields, resp.status_code = 422 → resp.body = Json.obj fields →
      hasKey fields "errors" = false →
      assert_validation_error resp field = .harnessFatal) ∧
    (∀ fields errs, resp.status_code = 422 → resp.body = Json.obj fields →
      lookupField fields "errors" = some errs → field = none →
      assert_validation_error resp field = .ok errs) ∧
    (∀ fields efields f msgs, resp.status_code = 422 →
      resp.body = Json.obj fields →
      lookupField fields "errors" = some (Json.obj efields) →
      field = some f → f.isEmpty = false → lookupField efields f = some msgs →
      assert_validation_error resp field = .ok msgs) ∧
    (∀ fields efields f, resp.status_code = 422 →
      resp.body = Json.obj fields →
      lookupField fields "errors" = some (Json.obj efields) →
      field = some f → f.isEmpty = false → hasKey efields f = false →
      assert_validation_error resp field = .harnessFatal) := by
  refine ⟨?_, ?_, ?_, ?_, ?_⟩
  · intro hne
    unfold assert_validation_error
    rw [if_neg hne]
  · intro fields h422 hb hke
    unfold assert_validation_error
    rw [if_pos h422, hb]
    simp [validation_errors_inner, pyContains, hke]
  · intro fields errs h422 hb hl hf
    have hke := hasKey_of_lookupField _ _ _ hl
    unfold assert_validation_error
    rw [if_pos h422, hb, hf]
    simp [validation_errors_inner, pyContains, pyGetItem, hke, hl]
  · intro fields efields f msgs h422 hb hl hf hfe hm
    have hke := hasKey_of_lookupField _ _ _ hl
    have hkf := hasKey_of_lookupField _ _ _ hm
    unfold assert_validation_error
    rw [if_pos h422, hb, hf]
    simp [validation_errors_inner, pyContains, pyGetItem, hke, hl, hfe,
      hkf, hm]
  · intro fields efields f h422 hb hl hf hfe hkf
    have hke := hasKey_of_lookupField _ _ _ hl
    unfold assert_validation_error
    rw [if_pos h422, hb, hf]
    simp [validation_errors_inner, pyContains, pyGetItem, hke, hl, hfe, hkf]

/-- Witness for C4 (amended): a well-formed 422 body returns the requested
field's message list. -/
theorem C4_assert_validation_error_witness :
    assert_validation_error
      ⟨422, Json.obj [("errors", Json.obj [("name", Json.arr [Json.str "required"])])]⟩
      (some "name") = .ok (Json.arr [Json.str "required"]) :=
  (C4_assert_validation_error
    ⟨422, Json.obj [("errors", Json.obj [("name", Json.arr [Json.str "required"])])]⟩
    (some "name")).2.2.2.1
    [("errors", Json.obj [("name", Json.arr [Json.str "required"])])]
    [("name", Json.arr [Json.str "required"])] "name"
    (Json.arr [Json.str "required"]) rfl rfl rfl rfl rfl rfl

/-- C10: once the 422 status assertion has passed, `assert_validation_error`
never produces an ordinary assertion failure: the missing-"errors" check and
the missing-field check both sit inside the catch-all `try` block, so their
failure surfaces as the harness-fatal "could not parse validation errors"
path. -/
theorem C10_inner_checks_harness_fatal (resp : HResp) (field : Option String)
    (h422 : resp.status_code = 422) :
    ((assert_validation_error resp field).isStatusFailure = false) ∧
    (∀ fields, resp.body = Json.obj fields → hasKey fields "errors" = false →
      assert_validation_error resp field = .harnessFatal) ∧
    (∀ fields efields f, resp.body = Json.obj fields →
      lookupField fields "errors" = some (Json.obj efields) →
      field = some f → f.isEmpty = false → hasKey efields f = false →
      assert_validation_error resp field = .harnessFatal) := by
  refine ⟨?_, ?_, ?_⟩
  · unfold assert_validation_error
    rw [if_pos h422]
    rcases validation_errors_inner resp.body field with e | v <;>
      simp [AVResult.isStatusFailure]
  · intro fields hb hke
    unfold assert_validation_error
    rw [if_pos h422, hb]
    simp [validation_errors_inner, pyContains, hke]
  · intro fields efields f hb hl hf hfe hkf
    have hke := hasKey_of_lookupField _ _ _ hl
    unfold assert_validation_error
    rw [if_pos h422, hb, hf]
    simp [validation_errors_inner, pyContains, pyGetItem, hke, hl, hfe, hkf]

/-- Witness for C10: a 422 response with an empty object body is
harness-fatal, not an ordinary assertion failure. -/
theorem C10_inner_checks_harness_fatal_witness :
    (assert_validation_error ⟨422, Json.obj []⟩ none).isStatusFailure = false ∧
    assert_validation_error ⟨422, Json.obj []⟩ none = .harnessFatal :=
  ⟨(C10_inner_checks_harness_fatal ⟨422, Json.obj []⟩ none rfl).1,
   (C10_inner_checks_harness_fatal ⟨422, Json.obj []⟩ none rfl).2.1 [] rfl rfl⟩
